import Mathlib

/-!
# Verification of the PR management orchestrator (`scripts/manage_prs.py`)

This file gives a shallow embedding of the merge/conflict orchestration
engine of the repository: the `PRManager` class of `scripts/manage_prs.py`.

Modelling conventions:

* Network and subprocess effects are resolved by an oracle `Env`: one field
  per distinct REST endpoint / git invocation used by the script.  Each field
  returns `Except HTTPError _` (for `requests` calls, where
  `raise_for_status` raises `HTTPError` on a non-2xx response) or
  `Except PyExc ProcResult` (for `subprocess.run`, which can itself raise).
* The mutable instance state of `PRManager` (`self.successfully_merged`,
  `self.moved_to_conflicts`) together with an instrumentation trace of the
  external calls made is threaded explicitly as a state record `St`.
* Python dict payloads read with `.get` are modelled as association lists of
  `PyVal` (a Python value: `None`, a bool, or a string); `dictGet` returns
  `PyVal.none` for a missing key, exactly like `dict.get`.
* Exceptions that the Python code lets propagate are modelled with
  `Except`; `except` handlers in the source become `match` on the oracle
  outcome.
-/

namespace ManagePrs

/-- A Python value as it appears in the JSON payloads the script reads:
`None` (JSON `null` or a missing key via `.get`), a bool, or a string. -/
inductive PyVal where
  | none
  | bool (b : Bool)
  | str (s : String)
  deriving DecidableEq, Repr

/-- Python truthiness for the values we model (`if can_merge:` etc.):
`None` is falsy, a bool is itself, a string is truthy iff nonempty. -/
def PyVal.truthy : PyVal → Bool
  | .none => false
  | .bool b => b
  | .str s => s ≠ ""

/-- `d.get(k)` on a Python dict modelled as an association list: the value
of the first matching key, or `None` when the key is absent. -/
def dictGet (d : List (String × PyVal)) (k : String) : PyVal :=
  match d.find? (fun p => p.1 == k) with
  | some p => p.2
  | Option.none => .none

/-- `requests.exceptions.HTTPError`, raised by `raise_for_status` on a
non-2xx response; we record the HTTP status code. -/
structure HTTPError where
  status : Nat
  deriving DecidableEq, Repr

/-- An exception raised by `subprocess.run` itself (e.g. `OSError`). -/
structure PyExc where
  msg : String
  deriving DecidableEq, Repr

/-- Result of a completed `subprocess.run` with `capture_output=True`. -/
structure ProcResult where
  returncode : Int
  stdout : String
  deriving DecidableEq, Repr

/-- The fields of a PR object from `GET /repos/{owner}/{repo}/pulls` that
`process_pr` reads: `pr["number"]`, `pr["title"]`, `pr["head"]["ref"]`,
`pr["base"]["ref"]`. -/
structure PR where
  number : Nat
  title : String
  head_ref : String
  base_ref : String
  deriving DecidableEq, Repr

/-- A dict appended to `self.successfully_merged`.  The success path appends
`{"pr_number", "title", "branch"}` (no note key); the deletion-failure path
additionally has `"note": "Merged but branch deletion failed"`.  `note` is
`Option.none` when the key is absent. -/
structure MergedRecord where
  pr_number : Nat
  title : String
  branch : String
  note : Option String
  deriving DecidableEq, Repr

/-- Whether the merged PR's source branch was deleted, as recorded by the
dict appended to `self.successfully_merged`: the source encodes the
branch-deletion outcome by the absence (deleted) or presence (not deleted)
of the `"note"` key. -/
def MergedRecord.branchDeleted (r : MergedRecord) : Bool :=
  r.note.isNone

/-- A dict appended to `self.moved_to_conflicts`.  The branch-created path
appends `{"pr_number", "title", "branch", "conflicts_branch",
"conflicting_files"}`; the creation-failure path appends
`{"pr_number", "title", "branch", "conflicts_branch": None, "note"}` with no
`conflicting_files` key.  `Option.none` on `conflicting_files` and `note`
means the key is absent; `conflicts_branch = Option.none` is Python `None`. -/
structure ConflictRecord where
  pr_number : Nat
  title : String
  branch : String
  conflicts_branch : Option String
  conflicting_files : Option (List String)
  note : Option String
  deriving DecidableEq, Repr

/-- One external call made by the script.  Each constructor stands for one
concrete endpoint or subprocess invocation of the source:

* `listPulls` — `GET /repos/{owner}/{repo}/pulls` (`get_open_prs`)
* `repoInfo` — `GET /repos/{owner}/{repo}` (`get_default_branch`)
* `prDetail n` — `GET /repos/{owner}/{repo}/pulls/{n}` (`check_merge_status`)
* `mergePut n body` — `PUT /repos/{owner}/{repo}/pulls/{n}/merge` (`merge_pr`)
* `deleteRef b` — `DELETE /repos/{owner}/{repo}/git/refs/heads/{b}`
  (`delete_branch`)
* `refSha b` — `GET /repos/{owner}/{repo}/git/ref/heads/{b}`
  (`create_conflicts_branch`, reading the source SHA)
* `createRef ref sha` — `POST /repos/{owner}/{repo}/git/refs` with body
  `{"ref": ref, "sha": sha}` (`create_conflicts_branch`)
* `postComment n body` — `POST /repos/{owner}/{repo}/issues/{n}/comments`
  (`comment_on_pr`)
* `gitRun args` — `subprocess.run(args, ...)` (`get_conflicting_files`) -/
inductive Call where
  | listPulls
  | repoInfo
  | prDetail (n : Nat)
  | mergePut (n : Nat) (body : List (String × String))
  | deleteRef (branch : String)
  | refSha (branch : String)
  | createRef (ref sha : String)
  | postComment (n : Nat) (body : String)
  | gitRun (args : List String)
  deriving DecidableEq, Repr

/-- `true` on a `gitRun` trace entry: a local version-control tool
invocation. -/
def Call.isGitRun : Call → Bool
  | .gitRun _ => true
  | _ => false

/-- `true` on the `refSha b` trace entry: the first API call of
`create_conflicts_branch(b, _)`, i.e. the start of an attempt to create the
conflicts branch for source branch `b`. -/
def Call.isRefShaOf (b : String) : Call → Bool
  | .refSha x => x = b
  | _ => false

/-- The oracle resolving every external effect: one field per endpoint /
subprocess invocation, keyed by the request data the script sends. -/
structure Env where
  list_pulls : Except HTTPError (List PR)
  repo_info : Except HTTPError String
  pr_detail : Nat → Except HTTPError (List (String × PyVal))
  merge_put : Nat → Except HTTPError Unit
  delete_ref : String → Except HTTPError Unit
  ref_sha : String → Except HTTPError String
  create_ref : String → String → Except HTTPError Unit
  post_comment : Nat → String → Except HTTPError Unit
  merge_base : String → String → Except PyExc ProcResult
  merge_tree : String → String → String → Except PyExc ProcResult

/-- The mutable state threaded through a run: the two accumulator lists of
`PRManager` plus the trace of external calls made so far. -/
structure St where
  merged : List MergedRecord
  conflicts : List ConflictRecord
  calls : List Call
  deriving DecidableEq, Repr

/-- The state at `PRManager.__init__`: both accumulators empty, nothing
called yet. -/
def st0 : St := ⟨[], [], []⟩

/-- Append one call to the trace. -/
def St.call (s : St) (c : Call) : St :=
  { s with calls := s.calls ++ [c] }

/-- `get_open_prs`: `GET /repos/{owner}/{repo}/pulls` via `_api_get`, whose
`raise_for_status` propagates an `HTTPError` on non-2xx. -/
def get_open_prs (env : Env) (s : St) : Except HTTPError (List PR) × St :=
  (env.list_pulls, s.call .listPulls)

/-- `get_default_branch`: `GET /repos/{owner}/{repo}`, returning
`response.json()["default_branch"]`; `HTTPError` propagates. -/
def get_default_branch (env : Env) (s : St) : Except HTTPError String × St :=
  (env.repo_info, s.call .repoInfo)

/-- `check_merge_status`: `GET /repos/{owner}/{repo}/pulls/{pr_number}`
(HTTPError propagates — there is no `try` here), then
`(pr_data.get("mergeable"), pr_data.get("mergeable_state"))`. -/
def check_merge_status (env : Env) (pr_number : Nat) (s : St) :
    Except HTTPError (PyVal × PyVal) × St :=
  let s := s.call (.prDetail pr_number)
  match env.pr_detail pr_number with
  | .error e => (.error e, s)
  | .ok pr_data => (.ok (dictGet pr_data "mergeable", dictGet pr_data "mergeable_state"), s)

/-- `merge_pr`: `PUT .../pulls/{pr_number}/merge` with body
`{"merge_method": "merge"}` plus `commit_message` when given; the `try`
turns an `HTTPError` into `False`. -/
def merge_pr (env : Env) (pr_number : Nat) (commit_message : Option String)
    (s : St) : Bool × St :=
  let data := [("merge_method", "merge")] ++
    (match commit_message with
     | some msg => [("commit_message", msg)]
     | Option.none => [])
  let s := s.call (.mergePut pr_number data)
  match env.merge_put pr_number with
  | .ok _ => (true, s)
  | .error _ => (false, s)

/-- `delete_branch`: `DELETE .../git/refs/heads/{branch_name}`; the `try`
turns an `HTTPError` into `False`. -/
def delete_branch (env : Env) (branch_name : String) (s : St) : Bool × St :=
  let s := s.call (.deleteRef branch_name)
  match env.delete_ref branch_name with
  | .ok _ => (true, s)
  | .error _ => (false, s)

/-- `create_conflicts_branch`: computes
`conflicts_branch_name = "conflicts/" + source_branch`, reads the source
branch SHA with `GET .../git/ref/heads/{source_branch}`, then creates the
ref with `POST .../git/refs` body
`{"ref": "refs/heads/" + conflicts_branch_name, "sha": source_sha}`.
The `try` spans both calls and turns an `HTTPError` into `None`.
(`base_branch` is accepted and unused, as in the source.) -/
def create_conflicts_branch (env : Env) (source_branch base_branch : String)
    (s : St) : Option String × St :=
  let conflicts_branch_name := "conflicts/" ++ source_branch
  let s := s.call (.refSha source_branch)
  match env.ref_sha source_branch with
  | .error _ => (Option.none, s)
  | .ok source_sha =>
    let s := s.call (.createRef ("refs/heads/" ++ conflicts_branch_name) source_sha)
    match env.create_ref ("refs/heads/" ++ conflicts_branch_name) source_sha with
    | .error _ => (Option.none, s)
    | .ok _ => (some conflicts_branch_name, s)

/-- `comment_on_pr`: `POST .../issues/{pr_number}/comments` with body
`{"body": comment}`; the `try` turns an `HTTPError` into `False`. -/
def comment_on_pr (env : Env) (pr_number : Nat) (comment : String) (s : St) :
    Bool × St :=
  let s := s.call (.postComment pr_number comment)
  match env.post_comment pr_number comment with
  | .ok _ => (true, s)
  | .error _ => (false, s)

/-- The allow-list character class of the validation regex
`^[a-zA-Z0-9/_.-]+$` in `get_conflicting_files`. -/
def isAllowedChar (c : Char) : Bool :=
  c.isAlpha || c.isDigit || c = '/' || c = '_' || c = '.' || c = '-'

/-- Python's default whitespace set (ASCII part), as used by `str.split()`
with no argument and by `str.strip()`. -/
def pyWs (c : Char) : Bool :=
  c = ' ' || c = '\t' || c = '\n' || c = '\r' || c = '\x0b' || c = '\x0c'

/-- Split a character list at every character satisfying `p`, keeping empty
fields; with `p = (· = sep)` this is the semantics of Python
`str.split(sep)`. -/
def splitChars (p : Char → Bool) : List Char → List (List Char)
  | [] => [[]]
  | c :: cs =>
    match splitChars p cs with
    | [] => [[]]
    | g :: gs => if p c then [] :: g :: gs else (c :: g) :: gs

/-- Python `str.split('\n')`, keeping empty fields. -/
def pySplitLines (s : String) : List String :=
  (splitChars (fun c => c = '\n') s.data).map (fun g => (⟨g⟩ : String))

/-- Python `str.split()` with no separator: split on whitespace,
discarding empty fields. -/
def pySplit (line : String) : List String :=
  ((splitChars pyWs line.data).filter (fun g => g ≠ [])).map
    (fun g => (⟨g⟩ : String))

/-- Python `str.strip()`: remove leading and trailing whitespace. -/
def pyStrip (s : String) : String :=
  ⟨((s.data.dropWhile pyWs).reverse.dropWhile pyWs).reverse⟩

/-- Python `str.startswith(pre)`. -/
def pyStartsWith (s pre : String) : Bool :=
  pre.data.isPrefixOf s.data

/-- Semantics of Python `re.match(r'^[a-zA-Z0-9/_.-]+$', str)` as a
success test.  Python's `$` (without `re.MULTILINE`) matches at the end of
the string **or just before a newline at the end of the string**, so the
pattern accepts a nonempty all-allowed string optionally followed by one
trailing `'\n'`. -/
def pyMatchBranchPattern (str : String) : Bool :=
  let t := if str.data.getLast? = some '\n' then str.data.dropLast else str.data
  t ≠ [] && t.all isAllowedChar

/-- The parsing loop of `get_conflicting_files`: for each line of the
merge-tree stdout (split on `'\n'`), if it starts with
`"changed in both"`, split it on whitespace and append token index 3 when
there are more than 3 tokens. -/
def parseMergeTreeConflicts (stdout : String) : List String :=
  (pySplitLines stdout).foldl
    (fun conflicts line =>
      if pyStartsWith line "changed in both" then
        let parts := pySplit line
        if parts.length > 3 then conflicts ++ [parts.getD 3 ""] else conflicts
      else conflicts)
    []

/-- `get_conflicting_files(base_branch, head_branch)`: validate both names
against the branch pattern (invalid → warn and return `[]` with no git
call); run `git merge-base origin/<base> origin/<head>` (non-zero exit →
`[]`); run `git merge-tree <merge_base> origin/<base> origin/<head>` and
parse its output for `changed in both` lines.  The whole body is inside
`try: ... except Exception: return []`, so an exception from either
`subprocess.run` also yields `[]`; no exception escapes. -/
def get_conflicting_files (env : Env) (base_branch head_branch : String)
    (s : St) : List String × St :=
  if !pyMatchBranchPattern base_branch || !pyMatchBranchPattern head_branch then
    ([], s)
  else
    let mbArgs := ["git", "merge-base", "origin/" ++ base_branch, "origin/" ++ head_branch]
    let s := s.call (.gitRun mbArgs)
    match env.merge_base ("origin/" ++ base_branch) ("origin/" ++ head_branch) with
    | .error _ => ([], s)
    | .ok merge_base_result =>
      if merge_base_result.returncode ≠ 0 then
        ([], s)
      else
        let merge_base := pyStrip merge_base_result.stdout
        let mtArgs := ["git", "merge-tree", merge_base, "origin/" ++ base_branch,
          "origin/" ++ head_branch]
        let s := s.call (.gitRun mtArgs)
        match env.merge_tree merge_base ("origin/" ++ base_branch)
            ("origin/" ++ head_branch) with
        | .error _ => ([], s)
        | .ok result =>
          if result.returncode = 0 && result.stdout ≠ "" then
            (parseMergeTreeConflicts result.stdout, s)
          else
            ([], s)

/-- Python `"\n".join(items)`. -/
def joinWithNewline : List String → String
  | [] => ""
  | [x] => x
  | x :: y :: xs => x ++ "\n" ++ joinWithNewline (y :: xs)

/-- The comment body composed in `_handle_merge_conflict` when conflicting
files were found. -/
def conflictFilesComment (base_branch conflicts_branch : String)
    (conflicting_files : List String) : String :=
  let files_list := joinWithNewline
    (conflicting_files.map (fun f => "- `" ++ f ++ "`"))
  "## Merge Conflicts Detected\n\nThis PR has merge conflicts with `" ++
    base_branch ++ "`.\n\n**Conflicting files:**\n" ++ files_list ++
    "\n\nA conflicts branch has been created: `" ++ conflicts_branch ++
    "`\n\nPlease resolve the conflicts and update this PR."

/-- The generic comment body composed in `_handle_merge_conflict` when no
conflicting files were identified. -/
def genericConflictComment (base_branch conflicts_branch : String) : String :=
  "## Merge Conflicts Detected\n\nThis PR cannot be automatically merged into `" ++
    base_branch ++ "`.\n\nA conflicts branch has been created: `" ++
    conflicts_branch ++ "`\n\nPlease resolve the conflicts and update this PR."

/-- `_handle_merge_conflict`: create the conflicts branch; on success,
detect conflicting files, post a comment (its success only changes what is
printed), and append a conflict record carrying the branch and file list;
on creation failure, append a conflict record with `conflicts_branch =
None` and an explanatory note.  Nothing here raises. -/
def handle_merge_conflict (env : Env) (pr : PR)
    (head_branch base_branch : String) (s : St) : St :=
  match create_conflicts_branch env head_branch base_branch s with
  | (some conflicts_branch, s) =>
    let (conflicting_files, s) := get_conflicting_files env base_branch head_branch s
    let comment :=
      if conflicting_files ≠ [] then
        conflictFilesComment base_branch conflicts_branch conflicting_files
      else
        genericConflictComment base_branch conflicts_branch
    let (_commented, s) := comment_on_pr env pr.number comment s
    { s with conflicts := s.conflicts ++
        [⟨pr.number, pr.title, head_branch, some conflicts_branch,
          some conflicting_files, Option.none⟩] }
  | (Option.none, s) =>
    { s with conflicts := s.conflicts ++
        [⟨pr.number, pr.title, head_branch, Option.none, Option.none,
          some "Failed to create conflicts branch"⟩] }

/-- `process_pr`: read the mergeability report (an `HTTPError` here
propagates — `check_merge_status` is called outside any `try`); if
`can_merge` is truthy, attempt the merge and, on success, delete the source
branch (best effort) and append a merged record (with a note when deletion
failed); on merge failure, or when `can_merge` is not truthy, run
`_handle_merge_conflict`. -/
def process_pr (env : Env) (pr : PR) (s : St) : Except HTTPError Unit × St :=
  let pr_number := pr.number
  let pr_title := pr.title
  let head_branch := pr.head_ref
  let base_branch := pr.base_ref
  match check_merge_status env pr_number s with
  | (.error e, s) => (.error e, s)
  | (.ok (can_merge, _merge_state), s) =>
    if can_merge.truthy then
      match merge_pr env pr_number Option.none s with
      | (true, s) =>
        match delete_branch env head_branch s with
        | (true, s) =>
          (.ok (), { s with merged := s.merged ++
            [⟨pr_number, pr_title, head_branch, Option.none⟩] })
        | (false, s) =>
          (.ok (), { s with merged := s.merged ++
            [⟨pr_number, pr_title, head_branch,
              some "Merged but branch deletion failed"⟩] })
      | (false, s) =>
        (.ok (), handle_merge_conflict env pr head_branch base_branch s)
    else
      (.ok (), handle_merge_conflict env pr head_branch base_branch s)

/-- The `for pr in prs: self.process_pr(pr)` loop of `run`: process PRs in
listing order; an exception from `process_pr` propagates, aborting the
remainder of the loop. -/
def process_prs (env : Env) (prs : List PR) (s : St) :
    Except HTTPError Unit × St :=
  match prs with
  | [] => (.ok (), s)
  | pr :: rest =>
    match process_pr env pr s with
    | (.error e, s) => (.error e, s)
    | (.ok _, s) => process_prs env rest s

/-- The run summary as printed by `print_summary`: the two accumulator
lists read back from the instance state. -/
structure RunSummary where
  merged : List MergedRecord
  conflicts : List ConflictRecord
  deriving DecidableEq, Repr

/-- `run`: fetch open PRs (an `HTTPError` propagates); an empty listing
returns immediately — `print_summary` is not reached, modelled as
`Except.ok Option.none`; otherwise fetch the default branch (informational;
`HTTPError` propagates), process each PR in order, and finish with
`print_summary`, modelled as `Except.ok (some summary)` where the summary
is read from the final state. -/
def run (env : Env) (s : St) : Except HTTPError (Option RunSummary) × St :=
  match get_open_prs env s with
  | (.error e, s) => (.error e, s)
  | (.ok prs, s) =>
    if prs.isEmpty then
      (.ok Option.none, s)
    else
      match get_default_branch env s with
      | (.error e, s) => (.error e, s)
      | (.ok _default_branch, s) =>
        match process_prs env prs s with
        | (.error e, s) => (.error e, s)
        | (.ok _, s) => (.ok (some ⟨s.merged, s.conflicts⟩), s)

/-! ## Observers -/

/-- Whether an `Except` outcome is a success. -/
def exceptOk {ε α : Type} : Except ε α → Bool
  | .ok _ => true
  | .error _ => false

/-- The value component of `get_conflicting_files`: the file list it
returns, which depends only on the oracle and the two branch names
(`get_conflicting_files_spec` below connects the two). -/
def conflictDetectResult (env : Env) (base_branch head_branch : String) :
    List String :=
  if !pyMatchBranchPattern base_branch || !pyMatchBranchPattern head_branch then
    []
  else
    match env.merge_base ("origin/" ++ base_branch) ("origin/" ++ head_branch) with
    | .error _ => []
    | .ok merge_base_result =>
      if merge_base_result.returncode ≠ 0 then
        []
      else
        match env.merge_tree (pyStrip merge_base_result.stdout)
            ("origin/" ++ base_branch) ("origin/" ++ head_branch) with
        | .error _ => []
        | .ok result =>
          if result.returncode = 0 && result.stdout ≠ "" then
            parseMergeTreeConflicts result.stdout
          else
            []

/-- The PR numbers present in a `successfully_merged` list. -/
def mergedNums (l : List MergedRecord) : List Nat :=
  l.map MergedRecord.pr_number

/-- The PR numbers present in a `moved_to_conflicts` list. -/
def conflictNums (l : List ConflictRecord) : List Nat :=
  l.map ConflictRecord.pr_number

/-- `env` with the detail payload of PR `n` replaced by `d` prefixed with an
explicit `"mergeable": false` entry; used to compare the routing of a
payload lacking the `"mergeable"` key against an explicit `false`. -/
def withMergeableFalse (env : Env) (n : Nat) (d : List (String × PyVal)) : Env :=
  { env with pr_detail := fun k =>
      if k = n then .ok (("mergeable", PyVal.bool false) :: d)
      else env.pr_detail k }

/-! ## Concrete scenario fixtures -/

/-- A baseline oracle where every call succeeds: no open PRs, default
branch `main`, every PR reported `(true, "clean")`, git merge-base clean
and merge-tree silent. -/
def envBase : Env where
  list_pulls := .ok []
  repo_info := .ok "main"
  pr_detail := fun _ =>
    .ok [("mergeable", .bool true), ("mergeable_state", .str "clean")]
  merge_put := fun _ => .ok ()
  delete_ref := fun _ => .ok ()
  ref_sha := fun _ => .ok "abc123"
  create_ref := fun _ _ => .ok ()
  post_comment := fun _ _ => .ok ()
  merge_base := fun _ _ => .ok ⟨0, "mbsha\n"⟩
  merge_tree := fun _ _ _ => .ok ⟨0, ""⟩

/-- Scenario A of the spec: PR #42, head `feature`, base `main`. -/
def prA : PR := ⟨42, "Add feature", "feature", "main"⟩

/-- Scenario A oracle: one open PR, mergeable `(true, "clean")`, merge and
branch deletion succeed. -/
def envA : Env := { envBase with list_pulls := .ok [prA] }

/-- Scenario B-like PR: PR #7, head `broken-fix`, base `main`. -/
def prB : PR := ⟨7, "Broken fix", "broken-fix", "main"⟩

/-- A conflicted-PR oracle: one open PR reported `(false, "dirty")`;
conflicts-branch creation and commenting succeed. -/
def envB : Env := { envBase with
  list_pulls := .ok [prB]
  pr_detail := fun _ =>
    .ok [("mergeable", .bool false), ("mergeable_state", .str "dirty")] }

/-- An oracle listing two open PRs whose per-PR detail read fails with
HTTP 500. -/
def envC1 : Env := { envBase with
  list_pulls := .ok [⟨1, "first", "f1", "main"⟩, ⟨2, "second", "f2", "main"⟩]
  pr_detail := fun _ => .error ⟨500⟩ }

/-- An oracle where `subprocess.run` for `git merge-base` itself raises. -/
def envC5 : Env := { envBase with
  merge_base := fun _ _ => .error ⟨"git not found"⟩ }

/-- An oracle whose detail payload lacks the `"mergeable"` key entirely. -/
def envC10 : Env := { envBase with
  list_pulls := .ok [prB]
  pr_detail := fun _ => .ok [("mergeable_state", .str "unknown")] }

/-- An oracle listing PR #42 (mergeable) and PR #7 (not mergeable). -/
def envAB : Env := { envBase with
  list_pulls := .ok [prA, prB]
  pr_detail := fun n =>
    if n = 42 then .ok [("mergeable", .bool true), ("mergeable_state", .str "clean")]
    else .ok [("mergeable", .bool false), ("mergeable_state", .str "dirty")] }

/-! ## Frame lemmas about the effectful operations -/

@[simp] theorem St.call_merged (s : St) (c : Call) :
    (s.call c).merged = s.merged := rfl

@[simp] theorem St.call_conflicts (s : St) (c : Call) :
    (s.call c).conflicts = s.conflicts := rfl

@[simp] theorem St.call_calls (s : St) (c : Call) :
    (s.call c).calls = s.calls ++ [c] := rfl

theorem check_merge_status_snd (env : Env) (n : Nat) (s : St) :
    (check_merge_status env n s).2 = s.call (.prDetail n) := by
  unfold check_merge_status
  cases env.pr_detail n <;> rfl

theorem merge_pr_snd (env : Env) (n : Nat) (cm : Option String) (s : St) :
    ∃ body, (merge_pr env n cm s).2 = s.call (.mergePut n body) := by
  unfold merge_pr
  cases env.merge_put n <;> exact ⟨_, rfl⟩

theorem delete_branch_snd (env : Env) (b : String) (s : St) :
    (delete_branch env b s).2 = s.call (.deleteRef b) := by
  unfold delete_branch
  cases env.delete_ref b <;> rfl

theorem comment_on_pr_snd (env : Env) (n : Nat) (c : String) (s : St) :
    (comment_on_pr env n c s).2 = s.call (.postComment n c) := by
  unfold comment_on_pr
  cases env.post_comment n c <;> rfl

theorem get_conflicting_files_spec (env : Env) (b h : String) (s : St) :
    ∃ gs : List Call,
      get_conflicting_files env b h s =
        (conflictDetectResult env b h, { s with calls := s.calls ++ gs }) ∧
      ∀ c ∈ gs, c.isGitRun = true := by
  unfold get_conflicting_files conflictDetectResult
  split
  · exact ⟨[], by simp, by simp⟩
  · cases hmb : env.merge_base ("origin/" ++ b) ("origin/" ++ h) with
    | error e =>
      exact ⟨[.gitRun ["git", "merge-base", "origin/" ++ b, "origin/" ++ h]],
        by simp [St.call], by simp [Call.isGitRun]⟩
    | ok r =>
      by_cases hrc : r.returncode ≠ 0
      · exact ⟨[.gitRun ["git", "merge-base", "origin/" ++ b, "origin/" ++ h]],
          by simp [St.call, hrc], by simp [Call.isGitRun]⟩
      · cases hmt : env.merge_tree (pyStrip r.stdout) ("origin/" ++ b)
            ("origin/" ++ h) with
        | error e =>
          exact ⟨[.gitRun ["git", "merge-base", "origin/" ++ b, "origin/" ++ h],
            .gitRun ["git", "merge-tree", pyStrip r.stdout, "origin/" ++ b,
              "origin/" ++ h]],
            by simp [St.call, hrc, hmt], by simp [Call.isGitRun]⟩
        | ok t =>
          refine ⟨[.gitRun ["git", "merge-base", "origin/" ++ b, "origin/" ++ h],
            .gitRun ["git", "merge-tree", pyStrip r.stdout, "origin/" ++ b,
              "origin/" ++ h]],
            ?_, by simp [Call.isGitRun]⟩
          simp only [St.call, hrc, hmt, List.append_assoc, List.cons_append,
            List.nil_append, if_neg, hmb]
          simp [hrc]
          split <;> rfl

/-! ## Claim theorems -/

/-- C8: if the listing call returns zero open PRs, the run completes
immediately with both record lists empty, `print_summary` is never reached
(no summary is produced, modelled by the `Option.none` result), and the
call trace holds nothing but the listing call — in particular no
default-branch read and no per-PR call of any kind. -/
theorem c8_zero_open_prs (env : Env) (h : env.list_pulls = .ok []) :
    run env st0 = (.ok Option.none, ⟨[], [], [Call.listPulls]⟩) := by
  unfold run get_open_prs
  rw [h]
  rfl

/-- Witness for C8: the baseline oracle lists zero open PRs. -/
theorem c8_witness :
    run envBase st0 = (.ok Option.none, ⟨[], [], [Call.listPulls]⟩) :=
  c8_zero_open_prs envBase rfl

/-- C2: for a PR whose mergeability report is truthy and whose merge API
call succeeds, `process_pr` appends exactly one record for that PR to the
merged-records list (with some optional deletion note) and leaves the
conflict-records list unchanged. -/
theorem c2_merge_success_single_record (env : Env) (pr : PR) (s : St)
    (d : List (String × PyVal))
    (hd : env.pr_detail pr.number = .ok d)
    (hm : (dictGet d "mergeable").truthy = true)
    (hput : env.merge_put pr.number = .ok ()) :
    ∃ note : Option String,
      (process_pr env pr s).2.merged =
        s.merged ++ [⟨pr.number, pr.title, pr.head_ref, note⟩] ∧
      (process_pr env pr s).2.conflicts = s.conflicts := by
  simp only [process_pr, check_merge_status, merge_pr, delete_branch, hd, hm,
    hput, if_true]
  cases hdel : env.delete_ref pr.head_ref with
  | ok u => refine ⟨Option.none, ?_, ?_⟩ <;> simp [St.call]
  | error e =>
    refine ⟨some "Merged but branch deletion failed", ?_, ?_⟩ <;> simp [St.call]

/-- Witness for C2: scenario A's oracle, PR #42. -/
theorem c2_witness :
    ∃ note : Option String,
      (process_pr envA prA st0).2.merged =
        st0.merged ++ [⟨42, "Add feature", "feature", note⟩] ∧
      (process_pr envA prA st0).2.conflicts = st0.conflicts :=
  c2_merge_success_single_record envA prA st0
    [("mergeable", .bool true), ("mergeable_state", .str "clean")] rfl rfl rfl

/-- C6: the merged record appended for a successfully merged PR determines
the branch-deletion outcome: its `branchDeleted` reading (absence of the
deletion-failure note) equals the success of the branch-deletion call.  In
particular (scenario A, the witness below) a successful merge with
successful deletion yields one merged record with `branchDeleted = true`
and no conflict record. -/
theorem c6_merged_record_branch_deleted (env : Env) (pr : PR) (s : St)
    (d : List (String × PyVal))
    (hd : env.pr_detail pr.number = .ok d)
    (hm : (dictGet d "mergeable").truthy = true)
    (hput : env.merge_put pr.number = .ok ()) :
    ∃ rec : MergedRecord,
      (process_pr env pr s).2.merged = s.merged ++ [rec] ∧
      rec.pr_number = pr.number ∧
      rec.branch = pr.head_ref ∧
      rec.branchDeleted = exceptOk (env.delete_ref pr.head_ref) ∧
      (process_pr env pr s).2.conflicts = s.conflicts := by
  simp only [process_pr, check_merge_status, merge_pr, delete_branch, hd, hm,
    hput, if_true]
  cases hdel : env.delete_ref pr.head_ref with
  | ok u =>
    refine ⟨⟨pr.number, pr.title, pr.head_ref, Option.none⟩, ?_, rfl, rfl, ?_, ?_⟩ <;>
      simp [St.call, MergedRecord.branchDeleted, exceptOk, hdel]
  | error e =>
    refine ⟨⟨pr.number, pr.title, pr.head_ref,
      some "Merged but branch deletion failed"⟩, ?_, rfl, rfl, ?_, ?_⟩ <;>
      simp [St.call, MergedRecord.branchDeleted, exceptOk, hdel]

/-- Witness for C6: scenario A — PR #42, head `feature`, mergeability
`(true, "clean")`, merge and deletion succeed: one merged record with
`branchDeleted = true`, conflict records unchanged (empty). -/
theorem c6_witness :
    ∃ rec : MergedRecord,
      (process_pr envA prA st0).2.merged = st0.merged ++ [rec] ∧
      rec.pr_number = 42 ∧
      rec.branch = "feature" ∧
      rec.branchDeleted = true ∧
      (process_pr envA prA st0).2.conflicts = st0.conflicts :=
  c6_merged_record_branch_deleted envA prA st0
    [("mergeable", .bool true), ("mergeable_state", .str "clean")] rfl rfl rfl

/-- C10: when the detail payload lacks the `"mergeable"` key entirely,
`check_merge_status` returns `None` for it without raising (`dict.get`
never throws), and `process_pr` behaves exactly as it would had the payload
carried an explicit `"mergeable": false` — the PR is routed into conflict
handling. -/
theorem c10_missing_mergeable_key (env : Env) (pr : PR) (s : St)
    (d : List (String × PyVal))
    (hd : env.pr_detail pr.number = .ok d)
    (habs : d.find? (fun p => p.1 == "mergeable") = Option.none) :
    check_merge_status env pr.number s =
      (.ok (PyVal.none, dictGet d "mergeable_state"), s.call (.prDetail pr.number)) ∧
    process_pr env pr s = process_pr (withMergeableFalse env pr.number d) pr s := by
  have hget : dictGet d "mergeable" = PyVal.none := by
    unfold dictGet
    rw [habs]
  constructor
  · simp only [check_merge_status, hd, hget]
  · have hL : process_pr env pr s = (.ok (), handle_merge_conflict env pr
        pr.head_ref pr.base_ref (s.call (.prDetail pr.number))) := by
      simp only [process_pr, check_merge_status, hd, hget, PyVal.truthy,
        Bool.false_eq_true, if_false]
    have hR : process_pr (withMergeableFalse env pr.number d) pr s =
        (.ok (), handle_merge_conflict (withMergeableFalse env pr.number d) pr
          pr.head_ref pr.base_ref (s.call (.prDetail pr.number))) := by
      simp only [process_pr, check_merge_status, withMergeableFalse]
      simp [dictGet, List.find?, PyVal.truthy]
    rw [hL, hR]
    rfl

/-- Witness for C10: a payload carrying only `"mergeable_state"`. -/
theorem c10_witness :
    check_merge_status envC10 prB.number st0 =
      (.ok (PyVal.none, PyVal.str "unknown"), st0.call (.prDetail 7)) ∧
    process_pr envC10 prB st0 =
      process_pr (withMergeableFalse envC10 7 [("mergeable_state", .str "unknown")]) prB st0 :=
  c10_missing_mergeable_key envC10 prB st0
    [("mergeable_state", .str "unknown")] rfl rfl

/-- C1 counterexample: with two open PRs listed and a non-2xx response
(HTTP 500) to the first PR's mergeability read, the run aborts with that
`HTTPError`: no record is produced for either PR and the trace stops at
the first PR's detail read — the second PR is never touched.  This refutes
the claim that a non-2xx per-PR mergeability read does not abort the
remainder of the run: `check_merge_status` is called outside any `try`. -/
theorem c1_counterexample :
    (run envC1 st0).1 = .error ⟨500⟩ ∧
    (run envC1 st0).2.merged = [] ∧
    (run envC1 st0).2.conflicts = [] ∧
    (run envC1 st0).2.calls = [Call.listPulls, Call.repoInfo, Call.prDetail 1] :=
  ⟨rfl, rfl, rfl, rfl⟩

/-- C1 (amended): `process_pr` surfaces an `ApiError` if and only if the
per-PR mergeability read fails; API errors of the merge call, the branch
deletion, the conflicts-branch creation, and the comment post are all
absorbed at their call sites and abort only that PR's handling, while an
`ApiError` of the mergeability read (like one of the listing or
default-branch reads) propagates and aborts the run. -/
theorem c1_per_pr_error_boundary (env : Env) (pr : PR) (s : St) (e : HTTPError) :
    (process_pr env pr s).1 = .error e ↔ env.pr_detail pr.number = .error e := by
  constructor
  · intro hE
    cases h : env.pr_detail pr.number with
    | error e2 =>
      simp only [process_pr, check_merge_status, h] at hE
      injection hE with h2
      rw [h2]
    | ok d =>
      exfalso
      simp only [process_pr, check_merge_status, h] at hE
      split at hE
      · split at hE
        · split at hE <;> simp at hE
        · simp at hE
      · simp at hE
  · intro h
    simp only [process_pr, check_merge_status, h]

/-- C4 counterexample: the head branch name `"x\n"` contains `'\n'`, a
character outside `[A-Za-z0-9/_.-]`, yet conflict detection invokes the
local git tool twice (merge-base and merge-tree): Python's `$` in
`re.match(r'^[a-zA-Z0-9/_.-]+$', ...)` also matches just before a single
trailing newline, so the name passes validation. -/
theorem c4_counterexample :
    ('\n' ∈ ("x\n").data ∧ isAllowedChar '\n' = false) ∧
    (get_conflicting_files envBase "main" "x\n" st0).2.calls.countP
      Call.isGitRun = 2 := by
  exact ⟨⟨by decide, by decide⟩, by decide⟩

/-- C4 (amended): if either branch name fails the validation pattern —
that is, after ignoring at most one trailing newline it is empty or
contains a character outside `[A-Za-z0-9/_.-]` — then conflict detection
returns the empty list, records nothing, and makes no local tool
invocation. -/
theorem c4_branch_validation (env : Env) (b h : String) (s : St)
    (hv : pyMatchBranchPattern b = false ∨ pyMatchBranchPattern h = false) :
    get_conflicting_files env b h s = ([], s) := by
  unfold get_conflicting_files
  rcases hv with hv | hv <;> simp [hv]

/-- Witness for C4 (amended): a branch name with a space fails validation
and detection is a no-op. -/
theorem c4_witness :
    pyMatchBranchPattern "bad name" = false ∧
    get_conflicting_files envBase "main" "bad name" st0 = ([], st0) :=
  ⟨by decide, c4_branch_validation envBase "main" "bad name" st0
    (Or.inr (by decide))⟩

/-- C5: conflict detection fails open.  Its whole body sits in
`try: ... except Exception: return []`, so it totally returns a plain
list — no exception reaches the caller (visible in the return type of the
embedding) — and whenever a detection step fails (the merge-base
subprocess raises or exits non-zero, or the merge-tree subprocess raises
or exits non-zero), the returned list is empty. -/
theorem c5_detection_fail_open (env : Env) (b h : String) (s : St)
    (hf : (∃ e, env.merge_base ("origin/" ++ b) ("origin/" ++ h) = .error e) ∨
      (∃ r, env.merge_base ("origin/" ++ b) ("origin/" ++ h) = .ok r ∧
        r.returncode ≠ 0) ∨
      (∀ mb, (∃ e, env.merge_tree mb ("origin/" ++ b) ("origin/" ++ h) =
          .error e) ∨
        (∃ t, env.merge_tree mb ("origin/" ++ b) ("origin/" ++ h) = .ok t ∧
          t.returncode ≠ 0))) :
    (get_conflicting_files env b h s).1 = [] := by
  unfold get_conflicting_files
  split
  · rfl
  · rcases hf with ⟨e, he⟩ | ⟨r, hr, hrc⟩ | hmt
    · simp [he]
    · simp [hr, hrc]
    · cases hmb : env.merge_base ("origin/" ++ b) ("origin/" ++ h) with
      | error e => simp
      | ok r =>
        by_cases hrc : r.returncode ≠ 0
        · simp [hrc]
        · rcases hmt (pyStrip r.stdout) with ⟨e, he⟩ | ⟨t, ht, htrc⟩
          · simp [hrc, he]
          · simp [hrc, ht, htrc]

/-- Witness for C5: `subprocess.run` for merge-base raises. -/
theorem c5_witness :
    envC5.merge_base "origin/main" "origin/feature" = .error ⟨"git not found"⟩ ∧
    (get_conflicting_files envC5 "main" "feature" st0).1 = [] :=
  ⟨rfl, c5_detection_fail_open envC5 "main" "feature" st0
    (Or.inl ⟨⟨"git not found"⟩, rfl⟩)⟩

/-- C9: for a conflicted PR whose conflicts branch is created
successfully, `process_pr` raises nothing and appends exactly the conflict
record carrying the conflicts-branch name and the detected file list.  The
oracle's comment outcome (`env.post_comment`) is unconstrained and the
appended record is a fixed value not mentioning it: a comment-post failure
neither raises nor changes the record. -/
theorem c9_comment_failure_immaterial (env : Env) (pr : PR) (s : St)
    (d : List (String × PyVal)) (sha : String)
    (hd : env.pr_detail pr.number = .ok d)
    (hm : (dictGet d "mergeable").truthy = false)
    (hsha : env.ref_sha pr.head_ref = .ok sha)
    (hcr : env.create_ref ("refs/heads/" ++ ("conflicts/" ++ pr.head_ref)) sha =
      .ok ()) :
    (process_pr env pr s).1 = .ok () ∧
    (process_pr env pr s).2.conflicts = s.conflicts ++
      [⟨pr.number, pr.title, pr.head_ref, some ("conflicts/" ++ pr.head_ref),
        some (conflictDetectResult env pr.base_ref pr.head_ref), Option.none⟩] := by
  simp only [process_pr, check_merge_status, hd, hm, Bool.false_eq_true,
    if_false, true_and]
  simp only [handle_merge_conflict, create_conflicts_branch, hsha, hcr]
  obtain ⟨gs, hg, -⟩ := get_conflicting_files_spec env pr.base_ref pr.head_ref
    ((((s.call (.prDetail pr.number)).call (.refSha pr.head_ref)).call
      (.createRef ("refs/heads/" ++ ("conflicts/" ++ pr.head_ref)) sha)))
  rw [hg, comment_on_pr_snd]
  simp [St.call]

/-- Witness for C9: conflicted PR #7 with a created conflicts branch. -/
theorem c9_witness :
    (process_pr envB prB st0).1 = .ok () ∧
    (process_pr envB prB st0).2.conflicts = st0.conflicts ++
      [⟨7, "Broken fix", "broken-fix", some "conflicts/broken-fix",
        some (conflictDetectResult envB "main" "broken-fix"), Option.none⟩] :=
  c9_comment_failure_immaterial envB prB st0
    [("mergeable", .bool false), ("mergeable_state", .str "dirty")] "abc123"
    rfl rfl rfl rfl

/-- Git invocations never count as conflicts-branch-creation attempts. -/
theorem countP_isRefShaOf_gitRuns (b : String) (gs : List Call)
    (hgs : ∀ c ∈ gs, c.isGitRun = true) :
    gs.countP (Call.isRefShaOf b) = 0 := by
  rw [List.countP_eq_zero]
  intro c hc
  have hg := hgs c hc
  cases c <;> simp_all [Call.isGitRun, Call.isRefShaOf]

/-- C3: for a PR whose mergeability report is not truthy (false or
missing/unknown), `process_pr` starts exactly one conflicts-branch creation
attempt (one SHA read for the head branch), every ref-creation call it
makes targets `refs/heads/conflicts/<headBranch>`, and exactly one record
for the PR is appended to the conflict-records list (carrying the
conflicts-branch name, or `None` plus a note when creation failed). -/
theorem c3_conflicts_branch_attempted_once (env : Env) (pr : PR) (s : St)
    (d : List (String × PyVal))
    (hd : env.pr_detail pr.number = .ok d)
    (hm : (dictGet d "mergeable").truthy = false) :
    (process_pr env pr s).2.calls.countP (Call.isRefShaOf pr.head_ref) =
      s.calls.countP (Call.isRefShaOf pr.head_ref) + 1 ∧
    (∀ ref sha, Call.createRef ref sha ∈ (process_pr env pr s).2.calls →
      Call.createRef ref sha ∈ s.calls ∨
        ref = "refs/heads/" ++ ("conflicts/" ++ pr.head_ref)) ∧
    ∃ rec : ConflictRecord,
      (process_pr env pr s).2.conflicts = s.conflicts ++ [rec] ∧
      rec.pr_number = pr.number ∧
      (rec.conflicts_branch = some ("conflicts/" ++ pr.head_ref) ∨
        (rec.conflicts_branch = Option.none ∧
          rec.note = some "Failed to create conflicts branch")) := by
  simp only [process_pr, check_merge_status, hd, hm, Bool.false_eq_true,
    if_false]
  simp only [handle_merge_conflict, create_conflicts_branch]
  cases hsha : env.ref_sha pr.head_ref with
  | error e =>
    refine ⟨?_, ?_, ⟨⟨pr.number, pr.title, pr.head_ref, Option.none,
      Option.none, some "Failed to create conflicts branch"⟩,
      by simp [St.call], rfl, Or.inr ⟨rfl, rfl⟩⟩⟩
    · simp [St.call, List.countP_append, List.countP_cons, Call.isRefShaOf]
    · intro ref sha hmem
      simp only [St.call, List.mem_append, List.mem_singleton] at hmem
      rcases hmem with (hmem | hmem) | hmem
      · exact Or.inl hmem
      · simp at hmem
      · simp at hmem
  | ok sha0 =>
    cases hcr : env.create_ref ("refs/heads/" ++ ("conflicts/" ++ pr.head_ref))
        sha0 with
    | error e =>
      refine ⟨?_, ?_, ⟨⟨pr.number, pr.title, pr.head_ref, Option.none,
        Option.none, some "Failed to create conflicts branch"⟩,
        by simp [St.call, hcr], rfl, Or.inr ⟨rfl, rfl⟩⟩⟩
      · simp [St.call, hcr, List.countP_append, List.countP_cons,
          Call.isRefShaOf]
      · intro ref sha hmem
        simp only [St.call, hcr, List.mem_append, List.mem_singleton] at hmem
        rcases hmem with ((hmem | hmem) | hmem) | hmem
        · exact Or.inl hmem
        · simp at hmem
        · simp at hmem
        · simp only [Call.createRef.injEq] at hmem
          exact Or.inr hmem.1
    | ok u =>
      obtain ⟨gs, hg, hgs⟩ := get_conflicting_files_spec env pr.base_ref
        pr.head_ref
        (((s.call (.prDetail pr.number)).call (.refSha pr.head_ref)).call
          (.createRef ("refs/heads/" ++ ("conflicts/" ++ pr.head_ref)) sha0))
      simp only [hcr]
      rw [hg, comment_on_pr_snd]
      refine ⟨?_, ?_, ⟨⟨pr.number, pr.title, pr.head_ref,
        some ("conflicts/" ++ pr.head_ref),
        some (conflictDetectResult env pr.base_ref pr.head_ref), Option.none⟩,
        by simp [St.call], rfl, Or.inl rfl⟩⟩
      · simp [St.call, List.countP_append, List.countP_cons, Call.isRefShaOf,
          countP_isRefShaOf_gitRuns pr.head_ref gs hgs]
      · intro ref sha hmem
        simp only [St.call, List.mem_append, List.mem_singleton] at hmem
        rcases hmem with ((((hmem | hmem) | hmem) | hmem) | hmem) | hmem
        · exact Or.inl hmem
        · simp at hmem
        · simp at hmem
        · simp only [Call.createRef.injEq] at hmem
          exact Or.inr hmem.1
        · have := hgs _ hmem
          simp [Call.isGitRun] at this
        · simp at hmem

/-- Witness for C3: conflicted PR #7 under the scenario-B oracle. -/
theorem c3_witness :
    (process_pr envB prB st0).2.calls.countP (Call.isRefShaOf "broken-fix") =
      st0.calls.countP (Call.isRefShaOf "broken-fix") + 1 ∧
    (∀ ref sha, Call.createRef ref sha ∈ (process_pr envB prB st0).2.calls →
      Call.createRef ref sha ∈ st0.calls ∨
        ref = "refs/heads/" ++ ("conflicts/" ++ "broken-fix")) ∧
    ∃ rec : ConflictRecord,
      (process_pr envB prB st0).2.conflicts = st0.conflicts ++ [rec] ∧
      rec.pr_number = 7 ∧
      (rec.conflicts_branch = some ("conflicts/" ++ "broken-fix") ∨
        (rec.conflicts_branch = Option.none ∧
          rec.note = some "Failed to create conflicts branch")) :=
  c3_conflicts_branch_attempted_once envB prB st0
    [("mergeable", .bool false), ("mergeable_state", .str "dirty")] rfl rfl

/-- `_handle_merge_conflict` appends exactly one conflict record, for the
processed PR, and never touches the merged list. -/
theorem handle_merge_conflict_records (env : Env) (pr : PR) (hb bb : String)
    (s : St) :
    ∃ rec : ConflictRecord, rec.pr_number = pr.number ∧
      (handle_merge_conflict env pr hb bb s).merged = s.merged ∧
      (handle_merge_conflict env pr hb bb s).conflicts = s.conflicts ++ [rec] := by
  simp only [handle_merge_conflict, create_conflicts_branch]
  cases hsha : env.ref_sha hb with
  | error e =>
    exact ⟨⟨pr.number, pr.title, hb, Option.none, Option.none,
      some "Failed to create conflicts branch"⟩, rfl, by simp [St.call],
      by simp [St.call]⟩
  | ok sha0 =>
    cases hcr : env.create_ref ("refs/heads/" ++ ("conflicts/" ++ hb)) sha0 with
    | error e =>
      exact ⟨⟨pr.number, pr.title, hb, Option.none, Option.none,
        some "Failed to create conflicts branch"⟩, rfl,
        by simp [St.call, hcr], by simp [St.call, hcr]⟩
    | ok u =>
      obtain ⟨gs, hg, -⟩ := get_conflicting_files_spec env bb hb
        ((s.call (.refSha hb)).call
          (.createRef ("refs/heads/" ++ ("conflicts/" ++ hb)) sha0))
      simp only [hcr]
      rw [hg, comment_on_pr_snd]
      exact ⟨⟨pr.number, pr.title, hb, some ("conflicts/" ++ hb),
        some (conflictDetectResult env bb hb), Option.none⟩, rfl,
        by simp [St.call], by simp [St.call]⟩

/-- One `process_pr` step either leaves both record lists unchanged (the
mergeability read failed), or appends exactly one record carrying the
processed PR's number to exactly one of the two lists. -/
theorem process_pr_records (env : Env) (pr : PR) (s : St) :
    ((process_pr env pr s).2.merged = s.merged ∧
      (process_pr env pr s).2.conflicts = s.conflicts) ∨
    (∃ rec : MergedRecord, rec.pr_number = pr.number ∧
      (process_pr env pr s).2.merged = s.merged ++ [rec] ∧
      (process_pr env pr s).2.conflicts = s.conflicts) ∨
    (∃ rec : ConflictRecord, rec.pr_number = pr.number ∧
      (process_pr env pr s).2.merged = s.merged ∧
      (process_pr env pr s).2.conflicts = s.conflicts ++ [rec]) := by
  cases hd : env.pr_detail pr.number with
  | error e =>
    left
    simp [process_pr, check_merge_status, hd, St.call]
  | ok d =>
    by_cases hm : (dictGet d "mergeable").truthy
    · simp only [process_pr, check_merge_status, merge_pr, hd, hm, if_true]
      cases hput : env.merge_put pr.number with
      | ok u =>
        right; left
        simp only [delete_branch]
        cases hdel : env.delete_ref pr.head_ref with
        | ok v =>
          exact ⟨⟨pr.number, pr.title, pr.head_ref, Option.none⟩, rfl,
            by simp [St.call], by simp [St.call]⟩
        | error e =>
          exact ⟨⟨pr.number, pr.title, pr.head_ref,
            some "Merged but branch deletion failed"⟩, rfl,
            by simp [St.call], by simp [St.call]⟩
      | error e =>
        right; right
        obtain ⟨rec, h1, h2, h3⟩ := handle_merge_conflict_records env pr
          pr.head_ref pr.base_ref
          ((s.call (.prDetail pr.number)).call
            (.mergePut pr.number ([("merge_method", "merge")] ++ [])))
        exact ⟨rec, h1, by simpa [St.call] using h2, by simpa [St.call] using h3⟩
    · right; right
      simp only [process_pr, check_merge_status, hd,
        Bool.not_eq_true] at hm ⊢
      simp only [hm, Bool.false_eq_true, if_false]
      obtain ⟨rec, h1, h2, h3⟩ := handle_merge_conflict_records env pr
        pr.head_ref pr.base_ref (s.call (.prDetail pr.number))
      exact ⟨rec, h1, by simpa [St.call] using h2, by simpa [St.call] using h3⟩

/-- Processing any prefix of a PR listing with pairwise distinct numbers,
starting from a state whose recorded numbers are distinct from each other
and from the listing, keeps the recorded numbers pairwise distinct. -/
theorem process_prs_take_nodup (env : Env) :
    ∀ (prs : List PR) (s : St),
      (mergedNums s.merged ++ conflictNums s.conflicts ++
        prs.map PR.number).Nodup →
      ∀ k : Nat,
        (mergedNums (process_prs env (prs.take k) s).2.merged ++
          conflictNums (process_prs env (prs.take k) s).2.conflicts).Nodup := by
  intro prs
  induction prs with
  | nil =>
    intro s hnd k
    simp only [List.take_nil, process_prs]
    simpa using hnd
  | cons pr rest ih =>
    intro s hnd k
    have hstep : (mergedNums (process_pr env pr s).2.merged ++
        conflictNums (process_pr env pr s).2.conflicts ++
        rest.map PR.number).Nodup := by
      rcases process_pr_records env pr s with ⟨h1, h2⟩ | ⟨rec, hn, h1, h2⟩ |
        ⟨rec, hn, h1, h2⟩
      · rw [h1, h2]
        refine List.Sublist.nodup ?_ hnd
        exact List.Sublist.append_left
          (List.sublist_cons_self pr.number (rest.map PR.number)) _
      · rw [h1, h2]
        refine List.Perm.nodup ?_ hnd
        simp only [mergedNums, List.map_append, List.map_cons, List.map_nil,
          List.map, hn, List.append_assoc, List.singleton_append]
        exact (List.Perm.append_left _ (List.perm_middle.symm)).symm
      · rw [h1, h2]
        refine List.Perm.nodup ?_ hnd
        simp only [conflictNums, List.map_append, List.map_cons, List.map_nil,
          List.map, hn, List.append_assoc, List.singleton_append]
        exact List.Perm.refl _
    cases k with
    | zero =>
      simp only [List.take_zero, process_prs]
      exact List.Sublist.nodup (List.sublist_append_left _ _) hnd
    | succ j =>
      simp only [List.take_succ_cons, process_prs]
      rcases hp : process_pr env pr s with ⟨r, s1⟩
      rw [hp] at hstep
      cases r with
      | error e =>
        exact List.Sublist.nodup (List.sublist_append_left _ _) hstep
      | ok u => exact ih s1 hstep j

/-- C7: under the precondition that PR numbers are unique in the fetched
listing, after processing any prefix of the listing (i.e. after every
per-PR step, including a step aborted by a mergeability-read error) no PR
number occurs in both the merged-records and the conflict-records list. -/
theorem c7_record_lists_disjoint (env : Env) (prs : List PR) (k : Nat)
    (hnd : (prs.map PR.number).Nodup) (n : Nat) :
    ¬(n ∈ mergedNums (process_prs env (prs.take k) st0).2.merged ∧
      n ∈ conflictNums (process_prs env (prs.take k) st0).2.conflicts) := by
  have h := process_prs_take_nodup env prs st0
    (by simpa [st0, mergedNums, conflictNums] using hnd) k
  rw [List.nodup_append] at h
  intro ⟨h1, h2⟩
  exact h.2.2 h1 h2

/-- Witness for C7: two PRs (#42 mergeable, #7 conflicted) processed to the
end; PR #7 is not in both lists. -/
theorem c7_witness :
    ¬(7 ∈ mergedNums (process_prs envAB ([prA, prB].take 2) st0).2.merged ∧
      7 ∈ conflictNums (process_prs envAB ([prA, prB].take 2) st0).2.conflicts) :=
  c7_record_lists_disjoint envAB [prA, prB] 2 (by decide) 7

end ManagePrs
